import Mathlib

/-!
Shallow embedding of the migration-orchestration worker of the
fastify-bullmq repository, together with theorems checking the
natural-language specification against it.

The repository contains two variants of the queue worker:
* `src/unnamed/part_001` (essentially the same code as `src/src/queue.ts`):
  the job carries an explicit `components` list; the worker validates the
  snapshot against that list and then sorts the list by `MIGRATION_ORDER`.
  Embedded here as `runMigrationJob`.
* `src/unnamed/part_000`: the job carries an `ignoredItems` list; the worker
  validates the snapshot against the whole `MIGRATION_ORDER` catalog and
  iterates `MIGRATION_ORDER` minus the ignored items.  Embedded here as
  `runMigrationJobIgnored`.

The per-record create/record-mapping step and the identifier translator are
TODO stubs in the source; where a claim depends on them they are modelled
from the spec (doc comments on the corresponding definitions say so) and the
worker takes the per-component work as a parameter `work`, so that
instantiating `work` with a function that never fails and returns no
mappings gives exactly the behaviour of the source as written.

Numbers reported by `job.updateProgress((currentStep / totalSteps) * 100)`
are modelled as rationals.
-/

/-- Entity-type catalog, `MIGRATION_ORDER` in all worker variants:
the fixed dependency order of migratable components. -/
def MIGRATION_ORDER : List String :=
  ["custom_statuses", "groups", "custom_roles", "ticket_fields",
   "ticket_forms", "brands", "dynamic_content", "macros", "triggers",
   "trigger_categories", "views", "webhooks", "apps", "skills"]

/-- JavaScript `Array.prototype.indexOf`: index of the element, `-1` when absent. -/
def jsIndexOf (l : List String) (a : String) : Int :=
  if a ∈ l then ((l.indexOf a : Nat) : Int) else -1

/-- The comparator `(a, b) => MIGRATION_ORDER.indexOf(a) - MIGRATION_ORDER.indexOf(b)`
used by `migrationJob.components.sort(...)`, as the total preorder it induces:
`a` is allowed before `b` iff the comparator value is non-positive. -/
def componentLe (a b : String) : Bool :=
  decide (jsIndexOf MIGRATION_ORDER a ≤ jsIndexOf MIGRATION_ORDER b)

/-- One insertion step of a stable insertion sort with respect to `componentLe`. -/
def insertComponent (x : String) : List String → List String
  | [] => [x]
  | y :: ys => if componentLe y x then y :: insertComponent x ys else x :: y :: ys

/-- `migrationJob.components.sort((a, b) => MIGRATION_ORDER.indexOf(a) - MIGRATION_ORDER.indexOf(b))`
from part_001 line 191 / queue.ts line 127.  ECMAScript `sort` with a
consistent comparator produces the stable sort by the comparator order, which
this stable insertion sort computes. -/
def sortedComponents (components : List String) : List String :=
  components.foldr insertComponent []

/-- Per-component breakdown entry of a snapshot (`ComponentBreakdown` in the source). -/
structure ComponentBreakdown where
  count : String
  size : Nat
  file : String
deriving DecidableEq, Repr

/-- Snapshot record (`Snapshot` in the source).  `breakdown` is an association
list; `none` models JSON data in which the breakdown section is absent, which
is what the `!snapshot.breakdown` check in part_000/part_001 guards against.
(part_000 names the parent-instance field `sourceId`; part_001 names it
`parentId`; the claims do not depend on it.) -/
structure Snapshot where
  id : String
  name : String
  tags : List String
  parentId : String
  locked : Bool
  createdAt : String
  breakdown : Option (List (String × ComponentBreakdown))
deriving DecidableEq, Repr

/-- `snapshot.breakdown[comp]`: first entry of the association list with the
given component name, `none` when the key is absent (JS `undefined`). -/
def lookupBreakdown (bd : List (String × ComponentBreakdown)) (c : String) :
    Option ComponentBreakdown :=
  (bd.find? fun p => p.fst == c).map Prod.snd

/-- `validateSnapshot` from part_001 lines 85-101 (part_000 lines 71-87 is
identical; queue.ts lines 85-93 omits the two initial guards but behaves the
same whenever the snapshot has a breakdown).  Errors are the exact thrown
message strings.  The initial JS `if (!snapshot)` null-guard has no
counterpart here because a `Snapshot` value cannot be null. -/
def validateSnapshot (snapshot : Snapshot) (components : List String) :
    Except String Unit :=
  match snapshot.breakdown with
  | none => Except.error ("Snapshot breakdown is missing")
  | some bd =>
    let missingComponents := components.filter fun comp => (lookupBreakdown bd comp).isNone
    if missingComponents.length > 0 then
      Except.error ("Snapshot missing required components: " ++ String.intercalate (", ") missingComponents)
    else if snapshot.locked then
      Except.error ("Cannot use locked snapshot for migration")
    else
      Except.ok ()

/-- The mock snapshot with key `1` from `fetchSnapshotFromConvex` in part_001. -/
def mockSnapshot1 : Snapshot :=
  { id := "1"
    name := "Snapshot 1"
    tags := ["dev", "stable", "backup"]
    parentId := "1"
    locked := false
    createdAt := "2024-01-01T00:00:00.000Z"
    breakdown := some
      [("ticket_fields", { count := "10", size := 4500, file := "/1/1/ticket_fields.json" }),
       ("ticket_forms", { count := "1", size := 2500, file := "/1/1/ticket_forms.json" })] }

/-- `fetchSnapshotFromConvex` from part_000/part_001: resolves only the mock
snapshot with id "1", everything else yields `null`. -/
def fetchSnapshotFromConvex (snapshotId : String) : Option Snapshot :=
  if snapshotId = "1" then some mockSnapshot1 else none

/-- Zendesk credential bundle (`ZendeskCredentials` in the source). -/
structure ZendeskCredentials where
  token : String
  email : String
deriving DecidableEq, Repr

/-- Instance descriptor (`InstanceInfo` in the source). -/
structure InstanceInfo where
  id : String
  name : String
  subdomain : String
  tags : List String
  credentials : ZendeskCredentials
deriving DecidableEq, Repr

/-- The `source.type` discriminator, `'snapshot' | 'live'`. -/
inductive SourceType where
  | snapshot
  | live
deriving DecidableEq, Repr

/-- The `source` part of the job data.  `snapshotId` is optional in the
TypeScript interface, hence an `Option`. -/
structure SourceSpec where
  type : SourceType
  instanceInfo : InstanceInfo
  snapshotId : Option String
deriving DecidableEq, Repr

/-- The `target` part of the job data. -/
structure TargetSpec where
  instanceInfo : InstanceInfo
deriving DecidableEq, Repr

/-- The `job` part of part_001's `MigrationJobData`: id plus the requested
component list. -/
structure JobSpec where
  id : String
  components : List String
deriving DecidableEq, Repr

/-- part_001's `MigrationJobData`. -/
structure MigrationJobData where
  source : SourceSpec
  target : TargetSpec
  job : JobSpec
deriving DecidableEq, Repr

/-- part_000's `MigrationJobData`: a job id and an `ignoredItems` list
instead of an explicit component list. -/
structure MigrationJobData0 where
  jobId : String
  source : SourceSpec
  target : TargetSpec
  ignoredItems : List String
deriving DecidableEq, Repr

/-- `IdMapping` from part_001 lines 51-56.  The TypeScript ids have type
`string | number`; they are modelled as strings. -/
structure IdMapping where
  oldId : String
  newId : String
  type : String
  metadata : Option (List (String × String))
deriving DecidableEq, Repr

/-- JavaScript truthiness of the optional `source.snapshotId`: the guard
`source.type === 'snapshot' && source.snapshotId` treats an absent id and the
empty string alike as false. -/
def truthyId : Option String → Bool
  | none => false
  | some s => s ≠ ""

/-- The snapshot-resolution-and-validation phase of the worker bodies
(part_001 lines 177-188, part_000 lines 162-173), up to the start of the
component loop.  Returns the log lines this phase emits, the list of
component-list arguments handed to `validateSnapshot` (the observation that
settles which set the validator is invoked with), and either the resolved
snapshot (`none` when the phase was skipped) or the thrown error message.
`validationTarget` is `migrationJob.components` in part_001 and
`MIGRATION_ORDER` in part_000. -/
def snapshotPhase (source : SourceSpec) (validationTarget : List String) :
    List String × List (List String) × Except String (Option Snapshot) :=
  match source.type, source.snapshotId with
  | SourceType.snapshot, some sid =>
    if sid = "" then ([], [], Except.ok none)
    else
      match fetchSnapshotFromConvex sid with
      | none => (["Fetching snapshot " ++ sid],
                 [],
                 Except.error ("Snapshot " ++ sid ++ " not found"))
      | some snap =>
        match validateSnapshot snap validationTarget with
        | Except.error e =>
          (["Fetching snapshot " ++ sid, "Validating snapshot " ++ snap.name],
           [validationTarget],
           Except.error e)
        | Except.ok _ =>
          (["Fetching snapshot " ++ sid, "Validating snapshot " ++ snap.name,
            "Snapshot validation successful"],
           [validationTarget],
           Except.ok (some snap))
  | _, _ => ([], [], Except.ok none)

/-- The value passed to `job.updateProgress`: `(currentStep / totalSteps) * 100`
with `currentStep = k` already incremented. -/
def progressValue (totalSteps k : Nat) : ℚ :=
  ((k : ℚ) / (totalSteps : ℚ)) * 100

/-- State threaded through the component loop: the number of components that
have succeeded (`currentStep`), the accumulated `job.log` lines, the values
passed to `job.updateProgress`, the `idMappings` array, and the components
whose `Starting migration of ...` line has been emitted. -/
structure LoopState where
  currentStep : Nat
  log : List String
  progressUpdates : List ℚ
  idMappings : List IdMapping
  started : List String

/-- The source-data step of the loop body (part_001 lines 200-213): in the
snapshot branch the log line evaluates `componentInfo.size`, so a component
absent from the breakdown raises a TypeError there (unreachable after a
successful validation); otherwise the branch only emits its log line, since
`fetchSnapshotData` and `fetchLiveData` are mocks that cannot fail. -/
def componentFetchLog (source : SourceSpec) (snapshot : Option Snapshot) (c : String) :
    Except String String :=
  match source.type, snapshot with
  | SourceType.snapshot, some snap =>
    match snap.breakdown with
    | none => Except.error ("Cannot read properties of null")
    | some bd =>
      match lookupBreakdown bd c with
      | none => Except.error ("Cannot read properties of undefined")
      | some info =>
        Except.ok ("Fetching " ++ c ++ " from snapshot (size: " ++ Nat.repr info.size ++ " bytes)")
  | _, _ =>
    Except.ok ("Fetching " ++ c ++ " from live instance " ++ source.instanceInfo.subdomain)

/-- One iteration of the part_001 component loop (lines 195-236).  `work`
stands for the per-component create-and-record-mappings step, which is a TODO
in the source; `work` returning `Except.ok ms` appends `ms` to `idMappings`,
and `Except.error m` models the step throwing.  Instantiating
`work := fun c => Except.ok []` gives the loop exactly as written in the
source.  Returns the new state and `some m` when the iteration threw `m`
(after the catch block logged `Error processing ...`). -/
def runComponent (work : String → Except String (List IdMapping))
    (source : SourceSpec) (target : TargetSpec) (snapshot : Option Snapshot)
    (totalSteps : Nat) (st : LoopState) (c : String) : LoopState × Option String :=
  let stStart : LoopState :=
    { st with log := st.log ++ ["Starting migration of " ++ c], started := st.started ++ [c] }
  match componentFetchLog source snapshot c with
  | Except.error m =>
    ({ stStart with log := stStart.log ++ ["Error processing " ++ c ++ ": " ++ m] }, some m)
  | Except.ok fetchLine =>
    let st1 : LoopState :=
      { stStart with
          log := stStart.log ++
            [fetchLine,
             "Processing " ++ c ++ " (" ++ Nat.repr (st.currentStep + 1) ++ "/" ++ Nat.repr totalSteps ++ ")",
             "Creating " ++ c ++ " in target instance " ++ target.instanceInfo.subdomain] }
    match work c with
    | Except.error m =>
      ({ st1 with log := st1.log ++ ["Error processing " ++ c ++ ": " ++ m] }, some m)
    | Except.ok newMappings =>
      ({ st1 with
          idMappings := st1.idMappings ++ newMappings,
          currentStep := st.currentStep + 1,
          progressUpdates := st1.progressUpdates ++ [progressValue totalSteps (st.currentStep + 1)] },
       none)

/-- The part_001 component loop: iterate `runComponent`, stopping at the
first iteration that throws (fail-fast `throw error` after the catch log). -/
def runComponents (work : String → Except String (List IdMapping))
    (source : SourceSpec) (target : TargetSpec) (snapshot : Option Snapshot)
    (totalSteps : Nat) : List String → LoopState → LoopState × Option String
  | [], st => (st, none)
  | c :: rest, st =>
    match runComponent work source target snapshot totalSteps st c with
    | (st1, some m) => (st1, some m)
    | (st1, none) => runComponents work source target snapshot totalSteps rest st1

/-- Observable result of one worker run: the returned value or thrown error,
the log, the progress updates, the validator-invocation trace, the components
whose migration started, the number that succeeded, and the final contents of
`job.data.job.components` (`Array.prototype.sort` sorts in place, so once the
worker sorts, the stored array is the sorted one). -/
structure RunResult where
  outcome : Except String (String × List IdMapping)
  log : List String
  progressUpdates : List ℚ
  validatorCalls : List (List String)
  started : List String
  succeeded : Nat
  finalComponents : List String

/-- The worker body installed by `setupQueueProcessor` in part_001
(lines 160-254), as a function of the job data.  `work` models the TODO
create/record-mappings step exactly as in `runComponent`; everything else is
the source: the `totalSteps = migrationJob.components.length` progress
denominator, the snapshot guard `source.type === 'snapshot' && source.snapshotId`,
validation against `migrationJob.components`, the in-place sort by
`MIGRATION_ORDER`, the fail-fast loop, and the outer catch that logs
`Fatal error in migration job: ...` and rethrows. -/
def runMigrationJob (work : String → Except String (List IdMapping))
    (data : MigrationJobData) : RunResult :=
  let components := data.job.components
  let totalSteps := components.length
  let initLog : List String := ["Initializing migration job at tmp/" ++ data.job.id]
  let phase := snapshotPhase data.source components
  let baseLog := initLog ++ phase.1
  match phase.2.2 with
  | Except.error m =>
    { outcome := Except.error m
      log := baseLog ++ ["Fatal error in migration job: " ++ m]
      progressUpdates := []
      validatorCalls := phase.2.1
      started := []
      succeeded := 0
      finalComponents := components }
  | Except.ok snapshot =>
    let sorted := sortedComponents components
    let init : LoopState :=
      { currentStep := 0, log := baseLog, progressUpdates := [], idMappings := [], started := [] }
    match runComponents work data.source data.target snapshot totalSteps sorted init with
    | (st, some m) =>
      { outcome := Except.error m
        log := st.log ++ ["Fatal error in migration job: " ++ m]
        progressUpdates := st.progressUpdates
        validatorCalls := phase.2.1
        started := st.started
        succeeded := st.currentStep
        finalComponents := sorted }
    | (st, none) =>
      { outcome := Except.ok (data.job.id, st.idMappings)
        log := st.log
        progressUpdates := st.progressUpdates
        validatorCalls := phase.2.1
        started := st.started
        succeeded := st.currentStep
        finalComponents := sorted }

/-- State of the part_000 component loop (no `idMappings` array there). -/
structure LoopState0 where
  currentStep : Nat
  log : List String
  progressUpdates : List ℚ
  started : List String

/-- One iteration of the part_000 component loop (lines 180-208).  The body
differs from part_001 only in having no `Processing (k/n)` log line and no
`idMappings`; `work` again stands for the TODO create step. -/
def runComponent0 (work : String → Except String Unit)
    (source : SourceSpec) (target : TargetSpec) (snapshot : Option Snapshot)
    (totalSteps : Nat) (st : LoopState0) (c : String) : LoopState0 × Option String :=
  let stStart : LoopState0 :=
    { st with log := st.log ++ ["Starting migration of " ++ c], started := st.started ++ [c] }
  match componentFetchLog source snapshot c with
  | Except.error m =>
    ({ stStart with log := stStart.log ++ ["Error processing " ++ c ++ ": " ++ m] }, some m)
  | Except.ok fetchLine =>
    let st1 : LoopState0 :=
      { stStart with
          log := stStart.log ++
            [fetchLine,
             "Creating " ++ c ++ " in target instance " ++ target.instanceInfo.subdomain] }
    match work c with
    | Except.error m =>
      ({ st1 with log := st1.log ++ ["Error processing " ++ c ++ ": " ++ m] }, some m)
    | Except.ok _ =>
      ({ st1 with
          currentStep := st.currentStep + 1,
          progressUpdates := st1.progressUpdates ++ [progressValue totalSteps (st.currentStep + 1)] },
       none)

/-- The part_000 component loop. -/
def runComponents0 (work : String → Except String Unit)
    (source : SourceSpec) (target : TargetSpec) (snapshot : Option Snapshot)
    (totalSteps : Nat) : List String → LoopState0 → LoopState0 × Option String
  | [], st => (st, none)
  | c :: rest, st =>
    match runComponent0 work source target snapshot totalSteps st c with
    | (st1, some m) => (st1, some m)
    | (st1, none) => runComponents0 work source target snapshot totalSteps rest st1

/-- Observable result of a part_000 worker run; the returned object (line
210-213) carries only the status and job id, no id mappings. -/
structure RunResult0 where
  outcome : Except String String
  log : List String
  progressUpdates : List ℚ
  validatorCalls : List (List String)
  started : List String
  succeeded : Nat

/-- The worker body installed by `setupQueueProcessor` in part_000 (lines
146-224).  The essential differences from part_001, both visible below: the
progress denominator is `totalSteps = MIGRATION_ORDER.length` (line 153) even
though only `MIGRATION_ORDER` minus `ignoredItems` is migrated (lines
176-178), and the snapshot is validated against the whole `MIGRATION_ORDER`
(line 171), not against the components the job will migrate. -/
def runMigrationJobIgnored (work : String → Except String Unit)
    (data : MigrationJobData0) : RunResult0 :=
  let totalSteps := MIGRATION_ORDER.length
  let initLog : List String := ["Initializing migration job at tmp/" ++ data.jobId]
  let phase := snapshotPhase data.source MIGRATION_ORDER
  let baseLog := initLog ++ phase.1
  match phase.2.2 with
  | Except.error m =>
    { outcome := Except.error m
      log := baseLog ++ ["Fatal error in migration job: " ++ m]
      progressUpdates := []
      validatorCalls := phase.2.1
      started := []
      succeeded := 0 }
  | Except.ok snapshot =>
    let componentsToMigrate := MIGRATION_ORDER.filter fun comp => !(data.ignoredItems.contains comp)
    let init : LoopState0 :=
      { currentStep := 0, log := baseLog, progressUpdates := [], started := [] }
    match runComponents0 work data.source data.target snapshot totalSteps componentsToMigrate init with
    | (st, some m) =>
      { outcome := Except.error m
        log := st.log ++ ["Fatal error in migration job: " ++ m]
        progressUpdates := st.progressUpdates
        validatorCalls := phase.2.1
        started := st.started
        succeeded := st.currentStep }
    | (st, none) =>
      { outcome := Except.ok data.jobId
        log := st.log
        progressUpdates := st.progressUpdates
        validatorCalls := phase.2.1
        started := st.started
        succeeded := st.currentStep }

/-- Modelled from the spec: the Identifier Translator of section 4.3 is
absent from src (only the `IdMapping` shape and the never-appended
`idMappings` array exist).  `record(entityType, sourceId, targetId, metadata)`
inserts a new mapping and fails with DuplicateMapping when the
`(entityType, sourceId)` key already exists in the scope, without
overwriting. -/
def recordMapping (table : List IdMapping) (entityType sourceId targetId : String)
    (metadata : Option (List (String × String))) : Except String (List IdMapping) :=
  if (table.find? fun m => m.type == entityType && m.oldId == sourceId).isSome then
    Except.error ("DuplicateMapping")
  else
    Except.ok (table ++ [{ oldId := sourceId, newId := targetId, type := entityType, metadata := metadata }])

/-- Modelled from the spec: `resolve(entityType, sourceId) -> targetId | NotFound`
of section 4.3; `none` is NotFound. -/
def resolveMapping (table : List IdMapping) (entityType sourceId : String) : Option String :=
  (table.find? fun m => m.type == entityType && m.oldId == sourceId).map fun m => m.newId

/-- A source record as fetched by the Source Adapter; only its source id is
relevant to the claims. -/
structure SourceRecord where
  sourceId : String
deriving DecidableEq, Repr

/-- Modelled from the spec: the per-record part of the Component Migrator of
section 4.4 (create each fetched record via the Target Adapter, stopping at
the first failure, and produce one IdMapping per successfully created
record); the create/record steps are TODOs in src. -/
def migrateRecords (create : String → SourceRecord → Except String String) (c : String) :
    List SourceRecord → Except String (List IdMapping)
  | [] => Except.ok []
  | r :: rs =>
    match create c r with
    | Except.error m => Except.error m
    | Except.ok newId =>
      match migrateRecords create c rs with
      | Except.error m => Except.error m
      | Except.ok ms =>
        Except.ok ({ oldId := r.sourceId, newId := newId, type := c, metadata := none } :: ms)

/-- Modelled from the spec: the per-component work of the Component Migrator,
to be plugged into the worker's TODO create step: fetch the component's
records through the Source Adapter and run `migrateRecords` on them. -/
def specWork (fetchRecords : String → List SourceRecord)
    (create : String → SourceRecord → Except String String) :
    String → Except String (List IdMapping) :=
  fun c => migrateRecords create c (fetchRecords c)

theorem insertComponent_perm (x : String) (l : List String) :
    (insertComponent x l).Perm (x :: l) := by
  induction l with
  | nil => simp [insertComponent]
  | cons y ys ih =>
    by_cases h : componentLe y x = true
    · simp only [insertComponent, h, if_true]
      exact (ih.cons y).trans (List.Perm.swap x y ys)
    · simp [insertComponent, h]

theorem sortedComponents_perm (l : List String) :
    (sortedComponents l).Perm l := by
  induction l with
  | nil => simp [sortedComponents]
  | cons x xs ih =>
    have h1 : sortedComponents (x :: xs) = insertComponent x (sortedComponents xs) := rfl
    rw [h1]
    exact (insertComponent_perm x (sortedComponents xs)).trans (ih.cons x)

theorem componentLe_total (a b : String) : componentLe a b = true ∨ componentLe b a = true := by
  unfold componentLe
  rcases Int.le_total (jsIndexOf MIGRATION_ORDER a) (jsIndexOf MIGRATION_ORDER b) with h | h
  · exact Or.inl (by simpa using h)
  · exact Or.inr (by simpa using h)

theorem componentLe_trans {a b c : String} (h1 : componentLe a b = true)
    (h2 : componentLe b c = true) : componentLe a c = true := by
  unfold componentLe at h1 h2 ⊢
  simp only [decide_eq_true_eq] at h1 h2 ⊢
  exact le_trans h1 h2

theorem insertComponent_pairwise (x : String) {l : List String}
    (h : l.Pairwise fun a b => componentLe a b = true) :
    (insertComponent x l).Pairwise fun a b => componentLe a b = true := by
  induction l with
  | nil => simp [insertComponent]
  | cons y ys ih =>
    rcases List.pairwise_cons.mp h with ⟨hy, hys⟩
    by_cases hle : componentLe y x = true
    · simp only [insertComponent, hle, if_true]
      refine List.pairwise_cons.mpr ⟨?_, ih hys⟩
      intro z hz
      have hz2 : z ∈ x :: ys := (insertComponent_perm x ys).mem_iff.mp hz
      rcases List.mem_cons.mp hz2 with rfl | hz3
      · exact hle
      · exact hy z hz3
    · simp only [insertComponent, hle, if_false]
      have hxy : componentLe x y = true := (componentLe_total y x).resolve_left hle
      refine List.pairwise_cons.mpr ⟨?_, h⟩
      intro z hz
      rcases List.mem_cons.mp hz with rfl | hz2
      · exact hxy
      · exact componentLe_trans hxy (hy z hz2)

theorem sortedComponents_pairwise (l : List String) :
    (sortedComponents l).Pairwise fun a b => componentLe a b = true := by
  induction l with
  | nil => simp [sortedComponents]
  | cons x xs ih => exact insertComponent_pairwise x ih

theorem migrationOrder_pairwise_lt :
    MIGRATION_ORDER.Pairwise fun a b =>
      jsIndexOf MIGRATION_ORDER a < jsIndexOf MIGRATION_ORDER b := by
  decide

theorem migrationOrder_nodup : MIGRATION_ORDER.Nodup := by decide

theorem jsIndexOf_injOn :
    ∀ a ∈ MIGRATION_ORDER, ∀ b ∈ MIGRATION_ORDER,
      jsIndexOf MIGRATION_ORDER a = jsIndexOf MIGRATION_ORDER b → a = b := by
  decide

theorem pairwise_and_of {α : Type} {R S : α → α → Prop} :
    ∀ {l : List α}, l.Pairwise R → l.Pairwise S → l.Pairwise fun a b => R a b ∧ S a b :=
  fun h1 h2 => h1.and h2

/-- The strict-or-equal order on catalog positions used to compare the two
sorted lists in `sortedComponents_eq_filter`. -/
def catalogR (a b : String) : Prop :=
  jsIndexOf MIGRATION_ORDER a < jsIndexOf MIGRATION_ORDER b ∨ a = b

theorem catalogR_antisymm : ∀ a b : String, catalogR a b → catalogR b a → a = b := by
  intro a b h1 h2
  rcases h1 with h1 | h1
  · rcases h2 with h2 | h2
    · exact absurd h1 (not_lt_of_le (le_of_lt h2))
    · exact h2.symm
  · exact h1

theorem sortedComponents_eq_filter (req : List String) (hnd : req.Nodup)
    (hsub : ∀ c ∈ req, c ∈ MIGRATION_ORDER) :
    sortedComponents req = MIGRATION_ORDER.filter fun c => decide (c ∈ req) := by
  have hperm1 : (sortedComponents req).Perm req := sortedComponents_perm req
  have hfilnd : (MIGRATION_ORDER.filter fun c => decide (c ∈ req)).Nodup :=
    migrationOrder_nodup.filter _
  have hmem : ∀ a, a ∈ MIGRATION_ORDER.filter (fun c => decide (c ∈ req)) ↔ a ∈ req := by
    intro a
    constructor
    · intro h
      have h2 := List.mem_filter.mp h
      simpa using h2.2
    · intro h
      exact List.mem_filter.mpr ⟨hsub a h, by simpa using h⟩
  have hperm2 : (MIGRATION_ORDER.filter fun c => decide (c ∈ req)).Perm req :=
    (List.perm_ext_iff_of_nodup hfilnd hnd).mpr hmem
  have hperm : (sortedComponents req).Perm (MIGRATION_ORDER.filter fun c => decide (c ∈ req)) :=
    hperm1.trans hperm2.symm
  haveI : IsAntisymm String catalogR := ⟨catalogR_antisymm⟩
  have hsorted1 : (sortedComponents req).Pairwise catalogR := by
    have hnd1 : (sortedComponents req).Nodup := hperm1.symm.nodup hnd
    have hcomb := pairwise_and_of (sortedComponents_pairwise req) hnd1
    refine hcomb.imp_of_mem ?_
    intro a b ha hb hab
    rcases hab with ⟨hle, hne⟩
    have haM : a ∈ MIGRATION_ORDER := hsub a (hperm1.subset ha)
    have hbM : b ∈ MIGRATION_ORDER := hsub b (hperm1.subset hb)
    left
    have hle2 : jsIndexOf MIGRATION_ORDER a ≤ jsIndexOf MIGRATION_ORDER b := by
      have := hle
      unfold componentLe at this
      simpa using this
    rcases lt_or_eq_of_le hle2 with h | h
    · exact h
    · exact absurd (jsIndexOf_injOn a haM b hbM h) hne
  have hsorted2 : (MIGRATION_ORDER.filter fun c => decide (c ∈ req)).Pairwise catalogR := by
    have hsl : (MIGRATION_ORDER.filter fun c => decide (c ∈ req)).Sublist MIGRATION_ORDER :=
      List.filter_sublist MIGRATION_ORDER
    exact (migrationOrder_pairwise_lt.sublist hsl).imp fun h => Or.inl h
  exact List.eq_of_perm_of_sorted hperm hsorted1 hsorted2

/-- The progress values pushed by `m` consecutive successful components when
`currentStep` starts at `s` and the denominator is `totalSteps = n`. -/
def progressTail (n s m : Nat) : List ℚ :=
  (List.range m).map fun k => progressValue n (s + k + 1)

theorem progressTail_succ (n s m : Nat) :
    progressTail n s (m + 1) = progressValue n (s + 1) :: progressTail n (s + 1) m := by
  unfold progressTail
  rw [List.range_succ_eq_map]
  simp only [List.map_cons, List.map_map]
  simp only [List.cons.injEq]
  refine ⟨by norm_num, ?_⟩
  apply List.map_congr_left
  intro a ha
  simp only [Function.comp]
  congr 1
  omega

theorem progressTail_getLast (n s m : Nat) (h : 0 < m) :
    (progressTail n s m).getLast? = some (progressValue n (s + m)) := by
  obtain ⟨m0, rfl⟩ : ∃ m0, m = m0 + 1 := ⟨m - 1, by omega⟩
  unfold progressTail
  rw [List.range_succ, List.map_append]
  simp only [List.map_cons, List.map_nil, List.getLast?_concat]
  rfl

theorem progressValue_mono (n : Nat) {a b : Nat} (h : a ≤ b) :
    progressValue n a ≤ progressValue n b := by
  unfold progressValue
  rcases Nat.eq_zero_or_pos n with h0 | h0
  · subst h0
    simp
  · have hn : (0 : ℚ) < (n : ℚ) := by exact_mod_cast h0
    have hab : ((a : ℚ)) ≤ ((b : ℚ)) := by exact_mod_cast h
    have h2 : ((a : ℚ)) / ((n : ℚ)) ≤ ((b : ℚ)) / ((n : ℚ)) := by
      apply div_le_div_of_nonneg_right hab (le_of_lt hn)
    nlinarith

theorem progressTail_pairwise_le (n s m : Nat) :
    (progressTail n s m).Pairwise (· ≤ ·) := by
  unfold progressTail
  refine List.pairwise_map.mpr ?_
  refine (List.pairwise_lt_range m).imp ?_
  intro a b hab
  exact progressValue_mono n (by omega)

theorem progressValue_full (n : Nat) (h : 0 < n) : progressValue n n = 100 := by
  unfold progressValue
  have hn : ((n : ℚ)) ≠ 0 := by
    have : (0 : ℚ) < (n : ℚ) := by exact_mod_cast h
    exact ne_of_gt this
  rw [div_self hn, one_mul]

theorem progressValue_formula (n k : Nat) :
    progressValue n k = 100 * (k : ℚ) / (n : ℚ) := by
  unfold progressValue
  ring 

theorem runComponent_ok (work : String → Except String (List IdMapping))
    (source : SourceSpec) (target : TargetSpec) (snapshot : Option Snapshot)
    (n : Nat) (st : LoopState) (c line : String) (v : List IdMapping)
    (hline : componentFetchLog source snapshot c = Except.ok line)
    (hw : work c = Except.ok v) :
    runComponent work source target snapshot n st c =
      ({ currentStep := st.currentStep + 1,
         log := st.log ++
           ["Starting migration of " ++ c, line,
            "Processing " ++ c ++ " (" ++ Nat.repr (st.currentStep + 1) ++ "/" ++ Nat.repr n ++ ")",
            "Creating " ++ c ++ " in target instance " ++ target.instanceInfo.subdomain],
         progressUpdates := st.progressUpdates ++ [progressValue n (st.currentStep + 1)],
         idMappings := st.idMappings ++ v,
         started := st.started ++ [c] }, none) := by
  simp [runComponent, hline, hw]

theorem runComponent_err_work (work : String → Except String (List IdMapping))
    (source : SourceSpec) (target : TargetSpec) (snapshot : Option Snapshot)
    (n : Nat) (st : LoopState) (c line m : String)
    (hline : componentFetchLog source snapshot c = Except.ok line)
    (hw : work c = Except.error m) :
    runComponent work source target snapshot n st c =
      ({ currentStep := st.currentStep,
         log := st.log ++
           ["Starting migration of " ++ c, line,
            "Processing " ++ c ++ " (" ++ Nat.repr (st.currentStep + 1) ++ "/" ++ Nat.repr n ++ ")",
            "Creating " ++ c ++ " in target instance " ++ target.instanceInfo.subdomain,
            "Error processing " ++ c ++ ": " ++ m],
         progressUpdates := st.progressUpdates,
         idMappings := st.idMappings,
         started := st.started ++ [c] }, some m) := by
  simp [runComponent, hline, hw]

theorem runComponent_err_fetch (work : String → Except String (List IdMapping))
    (source : SourceSpec) (target : TargetSpec) (snapshot : Option Snapshot)
    (n : Nat) (st : LoopState) (c m : String)
    (hline : componentFetchLog source snapshot c = Except.error m) :
    runComponent work source target snapshot n st c =
      ({ currentStep := st.currentStep,
         log := st.log ++
           ["Starting migration of " ++ c, "Error processing " ++ c ++ ": " ++ m],
         progressUpdates := st.progressUpdates,
         idMappings := st.idMappings,
         started := st.started ++ [c] }, some m) := by
  simp [runComponent, hline]

theorem runComponents_success (work : String → Except String (List IdMapping))
    (source : SourceSpec) (target : TargetSpec) (snapshot : Option Snapshot) (n : Nat)
    (wv : String → List IdMapping) :
    ∀ (l : List String) (st : LoopState),
      (∀ d ∈ l, ∃ line, componentFetchLog source snapshot d = Except.ok line) →
      (∀ d ∈ l, work d = Except.ok (wv d)) →
      ∃ st2, runComponents work source target snapshot n l st = (st2, none) ∧
        st2.currentStep = st.currentStep + l.length ∧
        st2.started = st.started ++ l ∧
        st2.idMappings = st.idMappings ++ (l.map wv).flatten ∧
        st2.progressUpdates = st.progressUpdates ++ progressTail n st.currentStep l.length := by
  intro l
  induction l with
  | nil =>
    intro st h1 h2
    exact ⟨st, by simp [runComponents, progressTail]⟩
  | cons c rest ih =>
    intro st h1 h2
    obtain ⟨line, hline⟩ := h1 c (by simp)
    have hw : work c = Except.ok (wv c) := h2 c (by simp)
    have hrest1 : ∀ d ∈ rest, ∃ l2, componentFetchLog source snapshot d = Except.ok l2 :=
      fun d hd => h1 d (by simp [hd])
    have hrest2 : ∀ d ∈ rest, work d = Except.ok (wv d) :=
      fun d hd => h2 d (by simp [hd])
    obtain ⟨st2, hrun, hstep, hstart, hmap, hprog⟩ :=
      ih ({ currentStep := st.currentStep + 1,
            log := st.log ++
              ["Starting migration of " ++ c, line,
               "Processing " ++ c ++ " (" ++ Nat.repr (st.currentStep + 1) ++ "/" ++ Nat.repr n ++ ")",
               "Creating " ++ c ++ " in target instance " ++ target.instanceInfo.subdomain],
            progressUpdates := st.progressUpdates ++ [progressValue n (st.currentStep + 1)],
            idMappings := st.idMappings ++ wv c,
            started := st.started ++ [c] }) hrest1 hrest2
    refine ⟨st2, ?_, ?_, ?_, ?_, ?_⟩
    · rw [show runComponents work source target snapshot n (c :: rest) st =
            match runComponent work source target snapshot n st c with
            | (st1, some m) => (st1, some m)
            | (st1, none) => runComponents work source target snapshot n rest st1 from rfl,
          runComponent_ok work source target snapshot n st c line (wv c) hline hw]
      exact hrun
    · simp only [hstep]
      simp
      omega
    · simp only [hstart]
      simp
    · simp only [hmap]
      simp
    · simp only [hprog]
      simp only [List.length_cons, progressTail_succ]
      simp

theorem runComponents_failAt (work : String → Except String (List IdMapping))
    (source : SourceSpec) (target : TargetSpec) (snapshot : Option Snapshot) (n : Nat)
    (wv : String → List IdMapping) :
    ∀ (pre : List String) (c : String) (post : List String) (st : LoopState) (m : String),
      (∀ d ∈ pre, ∃ line, componentFetchLog source snapshot d = Except.ok line) →
      (∀ d ∈ pre, work d = Except.ok (wv d)) →
      (∃ line, componentFetchLog source snapshot c = Except.ok line) →
      work c = Except.error m →
      ∃ st2, runComponents work source target snapshot n (pre ++ c :: post) st = (st2, some m) ∧
        st2.started = st.started ++ pre ++ [c] ∧
        st2.currentStep = st.currentStep + pre.length ∧
        st2.progressUpdates = st.progressUpdates ++ progressTail n st.currentStep pre.length ∧
        ("Error processing " ++ c ++ ": " ++ m) ∈ st2.log := by
  intro pre
  induction pre with
  | nil =>
    intro c post st m _ _ hcf hcw
    obtain ⟨line, hline⟩ := hcf
    refine ⟨{ currentStep := st.currentStep,
              log := st.log ++
                ["Starting migration of " ++ c, line,
                 "Processing " ++ c ++ " (" ++ Nat.repr (st.currentStep + 1) ++ "/" ++ Nat.repr n ++ ")",
                 "Creating " ++ c ++ " in target instance " ++ target.instanceInfo.subdomain,
                 "Error processing " ++ c ++ ": " ++ m],
              progressUpdates := st.progressUpdates,
              idMappings := st.idMappings,
              started := st.started ++ [c] }, ?_, ?_, ?_, ?_, ?_⟩
    · rw [show runComponents work source target snapshot n ([] ++ c :: post) st =
            match runComponent work source target snapshot n st c with
            | (st1, some m2) => (st1, some m2)
            | (st1, none) => runComponents work source target snapshot n post st1 from rfl,
          runComponent_err_work work source target snapshot n st c line m hline hcw]
    · simp
    · simp
    · simp [progressTail]
    · simp
  | cons d pre2 ih =>
    intro c post st m h1 h2 hcf hcw
    obtain ⟨line, hline⟩ := h1 d (by simp)
    have hw : work d = Except.ok (wv d) := h2 d (by simp)
    have hrest1 : ∀ e ∈ pre2, ∃ l2, componentFetchLog source snapshot e = Except.ok l2 :=
      fun e he => h1 e (by simp [he])
    have hrest2 : ∀ e ∈ pre2, work e = Except.ok (wv e) :=
      fun e he => h2 e (by simp [he])
    obtain ⟨st2, hrun, hstart, hstep, hprog, hmem⟩ :=
      ih c post
        ({ currentStep := st.currentStep + 1,
           log := st.log ++
             ["Starting migration of " ++ d, line,
              "Processing " ++ d ++ " (" ++ Nat.repr (st.currentStep + 1) ++ "/" ++ Nat.repr n ++ ")",
              "Creating " ++ d ++ " in target instance " ++ target.instanceInfo.subdomain],
           progressUpdates := st.progressUpdates ++ [progressValue n (st.currentStep + 1)],
           idMappings := st.idMappings ++ wv d,
           started := st.started ++ [d] }) m hrest1 hrest2 hcf hcw
    refine ⟨st2, ?_, ?_, ?_, ?_, hmem⟩
    · rw [show runComponents work source target snapshot n ((d :: pre2) ++ c :: post) st =
            match runComponent work source target snapshot n st d with
            | (st1, some m2) => (st1, some m2)
            | (st1, none) => runComponents work source target snapshot n (pre2 ++ c :: post) st1 from rfl,
          runComponent_ok work source target snapshot n st d line (wv d) hline hw]
      exact hrun
    · simp only [hstart]
      simp
    · simp only [hstep]
      simp
      omega
    · simp only [hprog]
      simp only [List.length_cons, progressTail_succ]
      simp

theorem runComponents_progress_invariant (work : String → Except String (List IdMapping))
    (source : SourceSpec) (target : TargetSpec) (snapshot : Option Snapshot) (n : Nat) :
    ∀ (l : List String) (st : LoopState),
      ∃ m, (runComponents work source target snapshot n l st).1.currentStep = st.currentStep + m ∧
        (runComponents work source target snapshot n l st).1.progressUpdates =
          st.progressUpdates ++ progressTail n st.currentStep m := by
  intro l
  induction l with
  | nil =>
    intro st
    exact ⟨0, by simp [runComponents, progressTail]⟩
  | cons c rest ih =>
    intro st
    cases hline : componentFetchLog source snapshot c with
    | error m =>
      refine ⟨0, ?_, ?_⟩ <;>
        · rw [show runComponents work source target snapshot n (c :: rest) st =
                match runComponent work source target snapshot n st c with
                | (st1, some m2) => (st1, some m2)
                | (st1, none) => runComponents work source target snapshot n rest st1 from rfl,
              runComponent_err_fetch work source target snapshot n st c m hline]
          simp [progressTail]
    | ok line =>
      cases hw : work c with
      | error m =>
        refine ⟨0, ?_, ?_⟩ <;>
          · rw [show runComponents work source target snapshot n (c :: rest) st =
                  match runComponent work source target snapshot n st c with
                  | (st1, some m2) => (st1, some m2)
                  | (st1, none) => runComponents work source target snapshot n rest st1 from rfl,
                runComponent_err_work work source target snapshot n st c line m hline hw]
            simp [progressTail]
      | ok v =>
        obtain ⟨m2, hstep, hprog⟩ :=
          ih ({ currentStep := st.currentStep + 1,
                log := st.log ++
                  ["Starting migration of " ++ c, line,
                   "Processing " ++ c ++ " (" ++ Nat.repr (st.currentStep + 1) ++ "/" ++ Nat.repr n ++ ")",
                   "Creating " ++ c ++ " in target instance " ++ target.instanceInfo.subdomain],
                progressUpdates := st.progressUpdates ++ [progressValue n (st.currentStep + 1)],
                idMappings := st.idMappings ++ v,
                started := st.started ++ [c] })
        refine ⟨m2 + 1, ?_, ?_⟩
        · rw [show runComponents work source target snapshot n (c :: rest) st =
                match runComponent work source target snapshot n st c with
                | (st1, some m3) => (st1, some m3)
                | (st1, none) => runComponents work source target snapshot n rest st1 from rfl,
              runComponent_ok work source target snapshot n st c line v hline hw]
          rw [hstep]
          simp
          omega
        · rw [show runComponents work source target snapshot n (c :: rest) st =
                match runComponent work source target snapshot n st c with
                | (st1, some m3) => (st1, some m3)
                | (st1, none) => runComponents work source target snapshot n rest st1 from rfl,
              runComponent_ok work source target snapshot n st c line v hline hw]
          rw [hprog]
          simp only [progressTail_succ]
          simp

theorem runComponents_none_all (work : String → Except String (List IdMapping))
    (source : SourceSpec) (target : TargetSpec) (snapshot : Option Snapshot) (n : Nat) :
    ∀ (l : List String) (st st2 : LoopState),
      runComponents work source target snapshot n l st = (st2, none) →
      st2.currentStep = st.currentStep + l.length := by
  intro l
  induction l with
  | nil =>
    intro st st2 h
    simp [runComponents] at h
    simp [← h]
  | cons c rest ih =>
    intro st st2 h
    cases hline : componentFetchLog source snapshot c with
    | error m =>
      rw [show runComponents work source target snapshot n (c :: rest) st =
            match runComponent work source target snapshot n st c with
            | (st1, some m2) => (st1, some m2)
            | (st1, none) => runComponents work source target snapshot n rest st1 from rfl,
          runComponent_err_fetch work source target snapshot n st c m hline] at h
      simp at h
    | ok line =>
      cases hw : work c with
      | error m =>
        rw [show runComponents work source target snapshot n (c :: rest) st =
              match runComponent work source target snapshot n st c with
              | (st1, some m2) => (st1, some m2)
              | (st1, none) => runComponents work source target snapshot n rest st1 from rfl,
            runComponent_err_work work source target snapshot n st c line m hline hw] at h
        simp at h
      | ok v =>
        rw [show runComponents work source target snapshot n (c :: rest) st =
              match runComponent work source target snapshot n st c with
              | (st1, some m2) => (st1, some m2)
              | (st1, none) => runComponents work source target snapshot n rest st1 from rfl,
            runComponent_ok work source target snapshot n st c line v hline hw] at h
        have := ih _ _ h
        simp at this
        simp [this]
        omega

theorem runComponent0_ok (work : String → Except String Unit)
    (source : SourceSpec) (target : TargetSpec) (snapshot : Option Snapshot)
    (n : Nat) (st : LoopState0) (c line : String)
    (hline : componentFetchLog source snapshot c = Except.ok line)
    (hw : work c = Except.ok ()) :
    runComponent0 work source target snapshot n st c =
      ({ currentStep := st.currentStep + 1,
         log := st.log ++
           ["Starting migration of " ++ c, line,
            "Creating " ++ c ++ " in target instance " ++ target.instanceInfo.subdomain],
         progressUpdates := st.progressUpdates ++ [progressValue n (st.currentStep + 1)],
         started := st.started ++ [c] }, none) := by
  simp [runComponent0, hline, hw]

theorem runComponent0_err_work (work : String → Except String Unit)
    (source : SourceSpec) (target : TargetSpec) (snapshot : Option Snapshot)
    (n : Nat) (st : LoopState0) (c line m : String)
    (hline : componentFetchLog source snapshot c = Except.ok line)
    (hw : work c = Except.error m) :
    runComponent0 work source target snapshot n st c =
      ({ currentStep := st.currentStep,
         log := st.log ++
           ["Starting migration of " ++ c, line,
            "Creating " ++ c ++ " in target instance " ++ target.instanceInfo.subdomain,
            "Error processing " ++ c ++ ": " ++ m],
         progressUpdates := st.progressUpdates,
         started := st.started ++ [c] }, some m) := by
  simp [runComponent0, hline, hw]

theorem runComponent0_err_fetch (work : String → Except String Unit)
    (source : SourceSpec) (target : TargetSpec) (snapshot : Option Snapshot)
    (n : Nat) (st : LoopState0) (c m : String)
    (hline : componentFetchLog source snapshot c = Except.error m) :
    runComponent0 work source target snapshot n st c =
      ({ currentStep := st.currentStep,
         log := st.log ++
           ["Starting migration of " ++ c, "Error processing " ++ c ++ ": " ++ m],
         progressUpdates := st.progressUpdates,
         started := st.started ++ [c] }, some m) := by
  simp [runComponent0, hline]

theorem runComponents0_progress_invariant (work : String → Except String Unit)
    (source : SourceSpec) (target : TargetSpec) (snapshot : Option Snapshot) (n : Nat) :
    ∀ (l : List String) (st : LoopState0),
      ∃ m, (runComponents0 work source target snapshot n l st).1.currentStep = st.currentStep + m ∧
        (runComponents0 work source target snapshot n l st).1.progressUpdates =
          st.progressUpdates ++ progressTail n st.currentStep m := by
  intro l
  induction l with
  | nil =>
    intro st
    exact ⟨0, by simp [runComponents0, progressTail]⟩
  | cons c rest ih =>
    intro st
    cases hline : componentFetchLog source snapshot c with
    | error m =>
      refine ⟨0, ?_, ?_⟩ <;>
        · rw [show runComponents0 work source target snapshot n (c :: rest) st =
                match runComponent0 work source target snapshot n st c with
                | (st1, some m2) => (st1, some m2)
                | (st1, none) => runComponents0 work source target snapshot n rest st1 from rfl,
              runComponent0_err_fetch work source target snapshot n st c m hline]
          simp [progressTail]
    | ok line =>
      cases hw : work c with
      | error m =>
        refine ⟨0, ?_, ?_⟩ <;>
          · rw [show runComponents0 work source target snapshot n (c :: rest) st =
                  match runComponent0 work source target snapshot n st c with
                  | (st1, some m2) => (st1, some m2)
                  | (st1, none) => runComponents0 work source target snapshot n rest st1 from rfl,
                runComponent0_err_work work source target snapshot n st c line m hline hw]
            simp [progressTail]
      | ok v =>
        obtain ⟨m2, hstep, hprog⟩ :=
          ih ({ currentStep := st.currentStep + 1,
                log := st.log ++
                  ["Starting migration of " ++ c, line,
                   "Creating " ++ c ++ " in target instance " ++ target.instanceInfo.subdomain],
                progressUpdates := st.progressUpdates ++ [progressValue n (st.currentStep + 1)],
                started := st.started ++ [c] })
        refine ⟨m2 + 1, ?_, ?_⟩
        · rw [show runComponents0 work source target snapshot n (c :: rest) st =
                match runComponent0 work source target snapshot n st c with
                | (st1, some m3) => (st1, some m3)
                | (st1, none) => runComponents0 work source target snapshot n rest st1 from rfl,
              runComponent0_ok work source target snapshot n st c line hline hw]
          rw [hstep]
          simp
          omega
        · rw [show runComponents0 work source target snapshot n (c :: rest) st =
                match runComponent0 work source target snapshot n st c with
                | (st1, some m3) => (st1, some m3)
                | (st1, none) => runComponents0 work source target snapshot n rest st1 from rfl,
              runComponent0_ok work source target snapshot n st c line hline hw]
          rw [hprog]
          simp only [progressTail_succ]
          simp

theorem snapshotPhase_live (source : SourceSpec) (vt : List String)
    (h : source.type = SourceType.live) :
    snapshotPhase source vt = ([], [], Except.ok none) := by
  unfold snapshotPhase
  rw [h]

theorem snapshotPhase_notfound (source : SourceSpec) (vt : List String) (sid : String)
    (h1 : source.type = SourceType.snapshot) (h2 : source.snapshotId = some sid)
    (h3 : sid ≠ "") (h4 : fetchSnapshotFromConvex sid = none) :
    snapshotPhase source vt =
      (["Fetching snapshot " ++ sid], [],
       Except.error ("Snapshot " ++ sid ++ " not found")) := by
  unfold snapshotPhase
  rw [h1, h2]
  simp [h3, h4]

theorem snapshotPhase_invalid (source : SourceSpec) (vt : List String) (sid : String)
    (snap : Snapshot) (e : String)
    (h1 : source.type = SourceType.snapshot) (h2 : source.snapshotId = some sid)
    (h3 : sid ≠ "") (h4 : fetchSnapshotFromConvex sid = some snap)
    (h5 : validateSnapshot snap vt = Except.error e) :
    snapshotPhase source vt =
      (["Fetching snapshot " ++ sid, "Validating snapshot " ++ snap.name], [vt],
       Except.error e) := by
  unfold snapshotPhase
  rw [h1, h2]
  simp [h3, h4, h5]

theorem snapshotPhase_valid (source : SourceSpec) (vt : List String) (sid : String)
    (snap : Snapshot)
    (h1 : source.type = SourceType.snapshot) (h2 : source.snapshotId = some sid)
    (h3 : sid ≠ "") (h4 : fetchSnapshotFromConvex sid = some snap)
    (h5 : validateSnapshot snap vt = Except.ok ()) :
    snapshotPhase source vt =
      (["Fetching snapshot " ++ sid, "Validating snapshot " ++ snap.name,
        "Snapshot validation successful"], [vt],
       Except.ok (some snap)) := by
  unfold snapshotPhase
  rw [h1, h2]
  simp [h3, h4, h5]

theorem componentFetchLog_live (source : SourceSpec) (snapshot : Option Snapshot) (c : String)
    (h : source.type = SourceType.live) :
    componentFetchLog source snapshot c =
      Except.ok ("Fetching " ++ c ++ " from live instance " ++ source.instanceInfo.subdomain) := by
  unfold componentFetchLog
  rw [h]

/-- C7: for every snapshot whose locked flag is true, the Snapshot Validator
never returns success, and whenever the breakdown is present and contains
every required component it reports exactly the locked-snapshot error
(part_001 lines 94-100 check missing components first, locked second). -/
theorem claim_C7 (snapshot : Snapshot) (components : List String)
    (hlocked : snapshot.locked = true) :
    validateSnapshot snapshot components ≠ Except.ok () ∧
    (∀ bd, snapshot.breakdown = some bd →
      (components.filter fun comp => (lookupBreakdown bd comp).isNone) = [] →
      validateSnapshot snapshot components =
        Except.error ("Cannot use locked snapshot for migration")) := by
  constructor
  · intro hok
    unfold validateSnapshot at hok
    cases hbd : snapshot.breakdown with
    | none =>
      rw [hbd] at hok
      exact Except.noConfusion hok
    | some bd =>
      rw [hbd] at hok
      simp only at hok
      by_cases hm : (components.filter fun comp => (lookupBreakdown bd comp).isNone).length > 0
      · rw [if_pos hm] at hok
        exact Except.noConfusion hok
      · rw [if_neg hm] at hok
        simp [hlocked] at hok
  · intro bd hbd hmiss
    unfold validateSnapshot
    rw [hbd]
    simp [hmiss, hlocked]

/-- The mock snapshot with its locked flag set, used as the C7 witness. -/
def lockedSnapshot : Snapshot :=
  { mockSnapshot1 with locked := true }

theorem claim_C7_witness :
    validateSnapshot lockedSnapshot ["ticket_fields", "ticket_forms"] ≠ Except.ok () ∧
    validateSnapshot lockedSnapshot ["ticket_fields", "ticket_forms"] =
      Except.error ("Cannot use locked snapshot for migration") := by
  have h := claim_C7 lockedSnapshot ["ticket_fields", "ticket_forms"] rfl
  exact ⟨h.1, h.2 _ rfl (by decide)⟩

/-- C8: whenever at least one required component is absent from the snapshot
breakdown, the validator fails with a message naming every missing component
(the whole `missingComponents` filter, joined), not only the first. -/
theorem claim_C8 (snapshot : Snapshot) (components : List String)
    (bd : List (String × ComponentBreakdown))
    (hbd : snapshot.breakdown = some bd)
    (hne : (components.filter fun comp => (lookupBreakdown bd comp).isNone) ≠ []) :
    validateSnapshot snapshot components =
      Except.error ("Snapshot missing required components: " ++
        String.intercalate (", ") (components.filter fun comp => (lookupBreakdown bd comp).isNone)) := by
  unfold validateSnapshot
  rw [hbd]
  have hlen : (components.filter fun comp => (lookupBreakdown bd comp).isNone).length > 0 :=
    List.length_pos.mpr hne
  simp [hlen]

theorem claim_C8_witness :
    validateSnapshot mockSnapshot1 ["groups", "ticket_forms", "skills"] =
      Except.error ("Snapshot missing required components: groups, skills") := by
  have h := claim_C8 mockSnapshot1 ["groups", "ticket_forms", "skills"] _ rfl (by decide)
  exact h.trans rfl

/-- C6: against the spec-modelled Identifier Translator — `resolve` after a
matching `record` returns the recorded target id; `resolve` on an empty scope
is NotFound (`none`); and a second `record` with the same
`(entityType, sourceId)` key fails with DuplicateMapping while the existing
resolution is unchanged. -/
theorem claim_C6 (table : List IdMapping) (e s tid : String)
    (md : Option (List (String × String))) :
    (resolveMapping table e s = none →
      recordMapping table e s tid md =
        Except.ok (table ++ [{ oldId := s, newId := tid, type := e, metadata := md }]) ∧
      resolveMapping (table ++ [{ oldId := s, newId := tid, type := e, metadata := md }]) e s =
        some tid) ∧
    (∀ tid0, resolveMapping table e s = some tid0 →
      ∀ tid2 md2, recordMapping table e s tid2 md2 = Except.error ("DuplicateMapping") ∧
        resolveMapping table e s = some tid0) ∧
    resolveMapping ([] : List IdMapping) e s = none := by
  refine ⟨?_, ?_, rfl⟩
  · intro hres
    have hfind : (table.find? fun m => m.type == e && m.oldId == s) = none := by
      unfold resolveMapping at hres
      exact Option.map_eq_none'.mp hres
    constructor
    · unfold recordMapping
      rw [hfind]
      rfl
    · unfold resolveMapping
      rw [List.find?_append, hfind]
      simp
  · intro tid0 hres tid2 md2
    refine ⟨?_, hres⟩
    have hfind : (table.find? fun m => m.type == e && m.oldId == s).isSome = true := by
      unfold resolveMapping at hres
      cases hf : table.find? fun m => m.type == e && m.oldId == s with
      | none =>
        rw [hf] at hres
        exact Option.noConfusion hres
      | some m0 => rfl
    unfold recordMapping
    rw [if_pos hfind]

theorem claim_C6_witness :
    resolveMapping ([] : List IdMapping) "groups" "10" = none ∧
    recordMapping ([] : List IdMapping) "groups" "10" "99" none =
      Except.ok [{ oldId := "10", newId := "99", type := "groups", metadata := none }] ∧
    resolveMapping [{ oldId := "10", newId := "99", type := "groups", metadata := none }]
      "groups" "10" = some ("99") ∧
    recordMapping [{ oldId := "10", newId := "99", type := "groups", metadata := none }]
      "groups" "10" "555" none = Except.error ("DuplicateMapping") := by
  have h := claim_C6 ([] : List IdMapping) "groups" "10" "99" none
  have h1 := h.1 (by rfl)
  have h2 := claim_C6 [{ oldId := "10", newId := "99", type := "groups", metadata := none }]
    "groups" "10" "99" none
  have h3 := (h2.2.1 ("99") (by rfl) ("555") none).1
  exact ⟨h.2.2, by simpa using h1.1, by simpa using h1.2, h3⟩

/-- Concrete instance descriptor used by the concrete runs below. -/
def acmeInstance : InstanceInfo :=
  { id := "1", name := "Acme", subdomain := "acme", tags := [],
    credentials := { token := "tok", email := "dev@acme.example" } }

/-- Concrete target used by the concrete runs below. -/
def acmeTarget : TargetSpec :=
  { instanceInfo :=
    { id := "2", name := "Acme Target", subdomain := "acme-target", tags := [],
      credentials := { token := "tok2", email := "ops@acme.example" } } }

/-- A live source (no snapshot involved). -/
def liveSource : SourceSpec :=
  { type := SourceType.live, instanceInfo := acmeInstance, snapshotId := none }

/-- The TODO create step exactly as in src: does nothing, never fails,
produces no id mappings. -/
def srcWork : String → Except String (List IdMapping) := fun _ => Except.ok []

/-- The TODO create step of part_000 exactly as in src. -/
def srcWork0 : String → Except String Unit := fun _ => Except.ok ()

/-- C1 counterexample: the requested set {groups, bogus} contains the
catalog-unknown name "bogus"; the computed ordered list is ["bogus",
"groups"] — the unknown name is neither rejected with a ValidationError nor
dropped, it is kept (sorted first, since `indexOf` yields -1) and the worker
then runs a migration step for it and completes. -/
theorem claim_C1_counterexample :
    sortedComponents ["groups", "bogus"] = ["bogus", "groups"] ∧
    "bogus" ∉ MIGRATION_ORDER ∧
    (runMigrationJob srcWork
      { source := liveSource, target := acmeTarget,
        job := { id := "j1", components := ["groups", "bogus"] } }).started =
      ["bogus", "groups"] ∧
    (runMigrationJob srcWork
      { source := liveSource, target := acmeTarget,
        job := { id := "j1", components := ["groups", "bogus"] } }).outcome =
      Except.ok ("j1", []) := by
  exact ⟨by decide, by decide, rfl, rfl⟩

/-- C1 (amended): the computed list is always a permutation of the requested
list — nothing is dropped and no error is ever raised — and when the
requested names are pairwise distinct and all catalog-known it equals the
catalog filtered to the requested set (catalog relative order). -/
theorem claim_C1 (req : List String) :
    (sortedComponents req).Perm req ∧
    (req.Nodup → (∀ c ∈ req, c ∈ MIGRATION_ORDER) →
      sortedComponents req = MIGRATION_ORDER.filter fun c => decide (c ∈ req)) :=
  ⟨sortedComponents_perm req, fun h1 h2 => sortedComponents_eq_filter req h1 h2⟩

theorem claim_C1_witness :
    (sortedComponents ["ticket_forms", "groups"]).Perm ["ticket_forms", "groups"] ∧
    sortedComponents ["ticket_forms", "groups"] =
      MIGRATION_ORDER.filter fun c => decide (c ∈ ["ticket_forms", "groups"]) := by
  have h := claim_C1 ["ticket_forms", "groups"]
  exact ⟨h.1, h.2 (by decide) (by decide)⟩

/-- C10: the worker stores the sorted list back into the job data
(`Array.prototype.sort` sorts in place and the source keeps using the same
array), so after the ordering step the stored `components` field holds the
catalog-sorted order, which differs from the caller-supplied order in
general. -/
theorem claim_C10 :
    (∀ (work : String → Except String (List IdMapping)) (data : MigrationJobData),
      data.source.type = SourceType.live →
      (runMigrationJob work data).finalComponents = sortedComponents data.job.components) ∧
    sortedComponents ["ticket_forms", "groups", "ticket_fields"] =
      ["groups", "ticket_fields", "ticket_forms"] ∧
    ["groups", "ticket_fields", "ticket_forms"] ≠ ["ticket_forms", "groups", "ticket_fields"] := by
  refine ⟨?_, by decide, by decide⟩
  intro work data hlive
  have hp := snapshotPhase_live data.source data.job.components hlive
  simp only [runMigrationJob, hp]
  split <;> rfl

theorem claim_C10_witness :
    (runMigrationJob srcWork
      { source := liveSource, target := acmeTarget,
        job := { id := "j10", components := ["ticket_forms", "groups", "ticket_fields"] } }).finalComponents =
      sortedComponents ["ticket_forms", "groups", "ticket_fields"] := by
  exact claim_C10.1 srcWork
    { source := liveSource, target := acmeTarget,
      job := { id := "j10", components := ["ticket_forms", "groups", "ticket_fields"] } } rfl

/-- A snapshot-typed source whose `snapshotId` is the empty string: JS
truthiness makes the worker skip snapshot resolution and validation. -/
def emptyIdSnapshotSource : SourceSpec :=
  { type := SourceType.snapshot, instanceInfo := acmeInstance, snapshotId := some ("") }

/-- C3 counterexample: a snapshot-sourced job whose `snapshotId` is the empty
string — an id that does not resolve (`fetchSnapshotFromConvex "" = none`).
The claim requires a Failed terminal state with a NotFound error, no
component step and progress 0; the worker instead skips resolution and
validation entirely (the guard `source.snapshotId` is falsy), runs the
component step through the live branch, reports progress 100 and completes. -/
theorem claim_C3_counterexample :
    fetchSnapshotFromConvex ("") = none ∧
    (runMigrationJob srcWork
      { source := emptyIdSnapshotSource, target := acmeTarget,
        job := { id := "j3", components := ["groups"] } }).outcome = Except.ok ("j3", []) ∧
    (runMigrationJob srcWork
      { source := emptyIdSnapshotSource, target := acmeTarget,
        job := { id := "j3", components := ["groups"] } }).validatorCalls = [] ∧
    (runMigrationJob srcWork
      { source := emptyIdSnapshotSource, target := acmeTarget,
        job := { id := "j3", components := ["groups"] } }).started = ["groups"] ∧
    (runMigrationJob srcWork
      { source := emptyIdSnapshotSource, target := acmeTarget,
        job := { id := "j3", components := ["groups"] } }).progressUpdates =
      [progressValue 1 1] ∧
    progressValue 1 1 = 100 := by
  refine ⟨rfl, rfl, rfl, rfl, rfl, ?_⟩
  unfold progressValue
  norm_num

/-- C3 (amended): for every snapshot-sourced job whose `snapshotId` is
present and non-empty — when the id does not resolve the job fails with the
`Snapshot <id> not found` message, no component step is attempted, no
progress update is emitted and the validator is never invoked; and when the
id resolves but validation fails, the job fails with the validation error,
again with no component step and no progress update.  (A snapshot-sourced
job with an absent or empty `snapshotId` skips resolution and validation
altogether, see the counterexample.) -/
theorem claim_C3 :
    (∀ (work : String → Except String (List IdMapping)) (data : MigrationJobData) (sid : String),
      data.source.type = SourceType.snapshot →
      data.source.snapshotId = some sid →
      sid ≠ "" →
      fetchSnapshotFromConvex sid = none →
      (runMigrationJob work data).outcome =
        Except.error ("Snapshot " ++ sid ++ " not found") ∧
      (runMigrationJob work data).started = [] ∧
      (runMigrationJob work data).progressUpdates = [] ∧
      (runMigrationJob work data).validatorCalls = []) ∧
    (∀ (work : String → Except String (List IdMapping)) (data : MigrationJobData)
        (sid : String) (snap : Snapshot) (e : String),
      data.source.type = SourceType.snapshot →
      data.source.snapshotId = some sid →
      sid ≠ "" →
      fetchSnapshotFromConvex sid = some snap →
      validateSnapshot snap data.job.components = Except.error e →
      (runMigrationJob work data).outcome = Except.error e ∧
      (runMigrationJob work data).started = [] ∧
      (runMigrationJob work data).progressUpdates = []) := by
  constructor
  · intro work data sid h1 h2 h3 h4
    have hp := snapshotPhase_notfound data.source data.job.components sid h1 h2 h3 h4
    refine ⟨?_, ?_, ?_, ?_⟩ <;> simp [runMigrationJob, hp]
  · intro work data sid snap e h1 h2 h3 h4 h5
    have hp := snapshotPhase_invalid data.source data.job.components sid snap e h1 h2 h3 h4 h5
    refine ⟨?_, ?_, ?_⟩ <;> simp [runMigrationJob, hp]

/-- A snapshot-typed source referencing the unresolvable id "2". -/
def missingSnapshotSource : SourceSpec :=
  { type := SourceType.snapshot, instanceInfo := acmeInstance, snapshotId := some ("2") }

theorem claim_C3_witness :
    (runMigrationJob srcWork
      { source := missingSnapshotSource, target := acmeTarget,
        job := { id := "j3b", components := ["groups"] } }).outcome =
      Except.error ("Snapshot " ++ "2" ++ " not found") ∧
    (runMigrationJob srcWork
      { source := missingSnapshotSource, target := acmeTarget,
        job := { id := "j3b", components := ["groups"] } }).started = [] ∧
    (runMigrationJob srcWork
      { source := missingSnapshotSource, target := acmeTarget,
        job := { id := "j3b", components := ["groups"] } }).progressUpdates = [] ∧
    (runMigrationJob srcWork
      { source := missingSnapshotSource, target := acmeTarget,
        job := { id := "j3b", components := ["groups"] } }).validatorCalls = [] := by
  exact claim_C3.1 srcWork
    { source := missingSnapshotSource, target := acmeTarget,
      job := { id := "j3b", components := ["groups"] } } "2" rfl rfl (by decide) rfl

/-- A snapshot-typed source referencing the resolvable mock snapshot "1". -/
def snapshotSource1 : SourceSpec :=
  { type := SourceType.snapshot, instanceInfo := acmeInstance, snapshotId := some ("1") }

/-- Every catalog entry except the two components present in the mock
snapshot breakdown; used to ignore everything else in the part_000 worker. -/
def ignoredAllButTickets : List String :=
  ["custom_statuses", "groups", "custom_roles", "brands", "dynamic_content",
   "macros", "triggers", "trigger_categories", "views", "webhooks", "apps", "skills"]

/-- C9 counterexample: in the part_000 worker a job ignoring everything but
`ticket_fields` and `ticket_forms` — both present in the mock snapshot, which
even validates successfully against exactly that requested list — is
nevertheless rejected, because the worker hands the validator the whole
catalog (`MIGRATION_ORDER`) rather than the components the job will migrate,
and the snapshot lacks the twelve ignored ones. -/
theorem claim_C9_counterexample :
    (runMigrationJobIgnored srcWork0
      { jobId := "j9", source := snapshotSource1, target := acmeTarget,
        ignoredItems := ignoredAllButTickets }).validatorCalls = [MIGRATION_ORDER] ∧
    MIGRATION_ORDER.filter (fun comp => !(ignoredAllButTickets.contains comp)) =
      ["ticket_fields", "ticket_forms"] ∧
    validateSnapshot mockSnapshot1 ["ticket_fields", "ticket_forms"] = Except.ok () ∧
    (runMigrationJobIgnored srcWork0
      { jobId := "j9", source := snapshotSource1, target := acmeTarget,
        ignoredItems := ignoredAllButTickets }).outcome =
      Except.error ("Snapshot missing required components: custom_statuses, groups, custom_roles, brands, dynamic_content, macros, triggers, trigger_categories, views, webhooks, apps, skills") ∧
    (runMigrationJobIgnored srcWork0
      { jobId := "j9", source := snapshotSource1, target := acmeTarget,
        ignoredItems := ignoredAllButTickets }).started = [] := by
  exact ⟨rfl, by decide, rfl, rfl, rfl⟩

/-- C9 (amended): whenever a snapshot-sourced job (present, non-empty,
resolvable `snapshotId`) reaches validation, the part_001 worker invokes the
validator exactly once, with the job's requested component list (in
caller-supplied order, before sorting); the part_000 worker invokes it
exactly once with the entire catalog `MIGRATION_ORDER` instead of the
non-ignored set. -/
theorem claim_C9 :
    (∀ (work : String → Except String (List IdMapping)) (data : MigrationJobData)
        (sid : String) (snap : Snapshot),
      data.source.type = SourceType.snapshot →
      data.source.snapshotId = some sid →
      sid ≠ "" →
      fetchSnapshotFromConvex sid = some snap →
      (runMigrationJob work data).validatorCalls = [data.job.components]) ∧
    (∀ (work0 : String → Except String Unit) (data0 : MigrationJobData0)
        (sid : String) (snap : Snapshot),
      data0.source.type = SourceType.snapshot →
      data0.source.snapshotId = some sid →
      sid ≠ "" →
      fetchSnapshotFromConvex sid = some snap →
      (runMigrationJobIgnored work0 data0).validatorCalls = [MIGRATION_ORDER]) := by
  constructor
  · intro work data sid snap h1 h2 h3 h4
    cases hv : validateSnapshot snap data.job.components with
    | error e =>
      have hp := snapshotPhase_invalid data.source data.job.components sid snap e h1 h2 h3 h4 hv
      simp [runMigrationJob, hp]
    | ok u =>
      cases u
      have hp := snapshotPhase_valid data.source data.job.components sid snap h1 h2 h3 h4 hv
      simp only [runMigrationJob, hp]
      split <;> rfl
  · intro work0 data0 sid snap h1 h2 h3 h4
    cases hv : validateSnapshot snap MIGRATION_ORDER with
    | error e =>
      have hp := snapshotPhase_invalid data0.source MIGRATION_ORDER sid snap e h1 h2 h3 h4 hv
      simp [runMigrationJobIgnored, hp]
    | ok u =>
      cases u
      have hp := snapshotPhase_valid data0.source MIGRATION_ORDER sid snap h1 h2 h3 h4 hv
      simp only [runMigrationJobIgnored, hp]
      split <;> rfl

theorem claim_C9_witness :
    (runMigrationJob srcWork
      { source := snapshotSource1, target := acmeTarget,
        job := { id := "j9b", components := ["ticket_fields"] } }).validatorCalls =
      [["ticket_fields"]] ∧
    (runMigrationJobIgnored srcWork0
      { jobId := "j9c", source := snapshotSource1, target := acmeTarget,
        ignoredItems := [] }).validatorCalls = [MIGRATION_ORDER] := by
  constructor
  · exact claim_C9.1 srcWork
      { source := snapshotSource1, target := acmeTarget,
        job := { id := "j9b", components := ["ticket_fields"] } } "1" mockSnapshot1
      rfl rfl (by decide) rfl
  · exact claim_C9.2 srcWork0
      { jobId := "j9c", source := snapshotSource1, target := acmeTarget, ignoredItems := [] }
      "1" mockSnapshot1 rfl rfl (by decide) rfl

theorem runComponents_progress_eq (work : String → Except String (List IdMapping))
    (source : SourceSpec) (target : TargetSpec) (snapshot : Option Snapshot) (n : Nat)
    (l : List String) (st st2 : LoopState) (e : Option String)
    (h : runComponents work source target snapshot n l st = (st2, e)) :
    ∃ m, st2.currentStep = st.currentStep + m ∧
      st2.progressUpdates = st.progressUpdates ++ progressTail n st.currentStep m := by
  obtain ⟨m, h1, h2⟩ := runComponents_progress_invariant work source target snapshot n l st
  rw [h] at h1 h2
  exact ⟨m, h1, h2⟩

theorem runComponents0_progress_eq (work : String → Except String Unit)
    (source : SourceSpec) (target : TargetSpec) (snapshot : Option Snapshot) (n : Nat)
    (l : List String) (st st2 : LoopState0) (e : Option String)
    (h : runComponents0 work source target snapshot n l st = (st2, e)) :
    ∃ m, st2.currentStep = st.currentStep + m ∧
      st2.progressUpdates = st.progressUpdates ++ progressTail n st.currentStep m := by
  obtain ⟨m, h1, h2⟩ := runComponents0_progress_invariant work source target snapshot n l st
  rw [h] at h1 h2
  exact ⟨m, h1, h2⟩

/-- C2 (amended): in the part_001 worker the sequence of reported progress
values is exactly `(k / totalSteps) * 100` for `k = 1 .. succeeded` with
`totalSteps` the number of requested components, hence non-decreasing, and a
completed job with at least one requested component ends at exactly 100.  In
the part_000 worker the denominator is instead the full catalog size
`MIGRATION_ORDER.length = 14` regardless of `ignoredItems`, so with any
nonempty `ignoredItems` the reported values fall short of
`100 x succeeded / (non-ignored count)` and a completed job ends below 100
(see the counterexample). -/
theorem claim_C2 :
    (∀ (work : String → Except String (List IdMapping)) (data : MigrationJobData),
      (runMigrationJob work data).progressUpdates =
        progressTail data.job.components.length 0 (runMigrationJob work data).succeeded ∧
      (runMigrationJob work data).progressUpdates.Pairwise (· ≤ ·) ∧
      (∀ jid ms, (runMigrationJob work data).outcome = Except.ok (jid, ms) →
        (runMigrationJob work data).succeeded = data.job.components.length) ∧
      (∀ jid ms, (runMigrationJob work data).outcome = Except.ok (jid, ms) →
        0 < data.job.components.length →
        (runMigrationJob work data).progressUpdates.getLast? = some 100)) ∧
    (∀ (work0 : String → Except String Unit) (data0 : MigrationJobData0),
      (runMigrationJobIgnored work0 data0).progressUpdates =
        progressTail MIGRATION_ORDER.length 0 (runMigrationJobIgnored work0 data0).succeeded) ∧
    (∀ n k : Nat, progressValue n k = 100 * (k : ℚ) / (n : ℚ)) := by
  refine ⟨?_, ?_, progressValue_formula⟩
  · intro work data
    rcases hph : snapshotPhase data.source data.job.components with ⟨plog, vcalls, pres⟩
    cases pres with
    | error m =>
      refine ⟨?_, ?_, ?_, ?_⟩ <;> simp [runMigrationJob, hph, progressTail]
    | ok snapshot =>
      simp only [runMigrationJob, hph]
      split
      next st2 m2 heq =>
        obtain ⟨mv, hstep, hprog⟩ :=
          runComponents_progress_eq work data.source data.target snapshot
            data.job.components.length (sortedComponents data.job.components) _ st2 _ heq
        refine ⟨?_, ?_, ?_, ?_⟩
        · simp only
          rw [hprog, hstep]
          simp
        · simp only
          rw [hprog]
          simpa using progressTail_pairwise_le data.job.components.length 0 mv
        · intro jid ms h
          exact absurd h (by simp)
        · intro jid ms h
          exact absurd h (by simp)
      next st2 heq =>
        obtain ⟨mv, hstep, hprog⟩ :=
          runComponents_progress_eq work data.source data.target snapshot
            data.job.components.length (sortedComponents data.job.components) _ st2 _ heq
        have hall := runComponents_none_all work data.source data.target snapshot
          data.job.components.length (sortedComponents data.job.components) _ st2 heq
        have hlen : (sortedComponents data.job.components).length = data.job.components.length :=
          (sortedComponents_perm data.job.components).length_eq
        refine ⟨?_, ?_, ?_, ?_⟩
        · simp only
          rw [hprog, hstep]
          simp
        · simp only
          rw [hprog]
          simpa using progressTail_pairwise_le data.job.components.length 0 mv
        · intro jid ms h
          simp only
          rw [hall]
          simp [hlen]
        · intro jid ms h hpos
          have hm : mv = data.job.components.length := by
            rw [hall] at hstep
            omega
          have hg := progressTail_getLast data.job.components.length 0
            data.job.components.length hpos
          rw [Nat.zero_add, progressValue_full data.job.components.length hpos] at hg
          simp only
          rw [hprog, hm]
          simpa using hg
      
  · intro work0 data0
    rcases hph : snapshotPhase data0.source MIGRATION_ORDER with ⟨plog, vcalls, pres⟩
    cases pres with
    | error m =>
      simp [runMigrationJobIgnored, hph, progressTail]
    | ok snapshot =>
      simp only [runMigrationJobIgnored, hph]
      split
      next st2 m2 heq =>
        obtain ⟨mv, hstep, hprog⟩ :=
          runComponents0_progress_eq work0 data0.source data0.target snapshot
            MIGRATION_ORDER.length
            (MIGRATION_ORDER.filter fun comp => !(data0.ignoredItems.contains comp)) _ st2 _ heq
        simp only
        rw [hprog, hstep]
        simp
      next st2 heq =>
        obtain ⟨mv, hstep, hprog⟩ :=
          runComponents0_progress_eq work0 data0.source data0.target snapshot
            MIGRATION_ORDER.length
            (MIGRATION_ORDER.filter fun comp => !(data0.ignoredItems.contains comp)) _ st2 _ heq
        simp only
        rw [hprog, hstep]
        simp

/-- C2 counterexample: in the part_000 worker, a live job ignoring only
`skills` migrates 13 components and completes, yet every reported progress
value is computed with denominator 14 (the full catalog size): the first
update is `(1/14)*100`, not `100 x 1/13`, and the final update on the
completed job is `(13/14)*100`, not 100. -/
theorem claim_C2_counterexample :
    (runMigrationJobIgnored srcWork0
      { jobId := "j2c", source := liveSource, target := acmeTarget,
        ignoredItems := ["skills"] }).outcome = Except.ok ("j2c") ∧
    (runMigrationJobIgnored srcWork0
      { jobId := "j2c", source := liveSource, target := acmeTarget,
        ignoredItems := ["skills"] }).succeeded = 13 ∧
    (runMigrationJobIgnored srcWork0
      { jobId := "j2c", source := liveSource, target := acmeTarget,
        ignoredItems := ["skills"] }).progressUpdates.head? = some (progressValue 14 1) ∧
    (runMigrationJobIgnored srcWork0
      { jobId := "j2c", source := liveSource, target := acmeTarget,
        ignoredItems := ["skills"] }).progressUpdates.getLast? = some (progressValue 14 13) ∧
    progressValue 14 1 ≠ 100 * (1 : ℚ) / 13 ∧
    progressValue 14 13 ≠ 100 := by
  refine ⟨rfl, rfl, rfl, rfl, ?_, ?_⟩
  · unfold progressValue
    norm_num
  · unfold progressValue
    norm_num

theorem claim_C2_witness :
    (runMigrationJob srcWork
      { source := liveSource, target := acmeTarget,
        job := { id := "j2w", components := ["groups", "macros"] } }).progressUpdates =
      progressTail 2 0
        (runMigrationJob srcWork
          { source := liveSource, target := acmeTarget,
            job := { id := "j2w", components := ["groups", "macros"] } }).succeeded ∧
    (runMigrationJob srcWork
      { source := liveSource, target := acmeTarget,
        job := { id := "j2w", components := ["groups", "macros"] } }).succeeded = 2 ∧
    (runMigrationJob srcWork
      { source := liveSource, target := acmeTarget,
        job := { id := "j2w", components := ["groups", "macros"] } }).progressUpdates.getLast? =
      some 100 := by
  have h := claim_C2.1 srcWork
    { source := liveSource, target := acmeTarget,
      job := { id := "j2w", components := ["groups", "macros"] } }
  exact ⟨h.1, h.2.2.1 ("j2w") [] rfl, h.2.2.2 ("j2w") [] rfl (by decide)⟩

/-- C4: if the per-component migration work of any component throws (the
create step is a TODO in src, modelled by the `work` parameter; the catch,
log and rethrow structure is src as written), the job aborts at that
component: no later component is started, the log contains
`Error processing <component>: <message>` for the failing component, the
final log line is the fatal-error line, and the run ends as a failure with
that error. -/
theorem claim_C4 (work : String → Except String (List IdMapping)) (data : MigrationJobData)
    (plog : List String) (vcalls : List (List String)) (snapOpt : Option Snapshot)
    (pre post : List String) (c m : String)
    (hphase : snapshotPhase data.source data.job.components = (plog, vcalls, Except.ok snapOpt))
    (hsplit : sortedComponents data.job.components = pre ++ c :: post)
    (hfetch : ∀ d ∈ pre, ∃ line, componentFetchLog data.source snapOpt d = Except.ok line)
    (hpre : ∀ d ∈ pre, ∃ v, work d = Except.ok v)
    (hfc : ∃ line, componentFetchLog data.source snapOpt c = Except.ok line)
    (hc : work c = Except.error m) :
    (runMigrationJob work data).outcome = Except.error m ∧
    (runMigrationJob work data).started = pre ++ [c] ∧
    ("Error processing " ++ c ++ ": " ++ m) ∈ (runMigrationJob work data).log ∧
    (runMigrationJob work data).log.getLast? =
      some ("Fatal error in migration job: " ++ m) ∧
    (runMigrationJob work data).progressUpdates =
      progressTail data.job.components.length 0 pre.length := by
  classical
  have hpre2 : ∀ d ∈ pre, work d =
      Except.ok (match work d with | Except.ok v => v | Except.error _ => []) := by
    intro d hd
    obtain ⟨v, hv⟩ := hpre d hd
    rw [hv]
  obtain ⟨st2, hrun, hstart, hstep, hprog, hmem⟩ :=
    runComponents_failAt work data.source data.target snapOpt data.job.components.length
      (fun d => match work d with | Except.ok v => v | Except.error _ => [])
      pre c post
      ({ currentStep := 0,
         log := ["Initializing migration job at tmp/" ++ data.job.id] ++ plog,
         progressUpdates := [], idMappings := [], started := [] })
      m hfetch hpre2 hfc hc
  simp only [runMigrationJob, hphase]
  rw [hsplit, hrun]
  refine ⟨rfl, ?_, ?_, ?_, ?_⟩
  · simp only [hstart]
    simp
  · simp only [List.mem_append]
    exact Or.inl hmem
  · exact List.getLast?_concat st2.log
  · simp only [hprog]
    simp

/-- The work function used as the C4 witness: the create step of `macros`
fails, every other component succeeds. -/
def failMacrosWork : String → Except String (List IdMapping) :=
  fun c => if c = "macros" then Except.error ("AdapterError: create failed")
           else Except.ok []

theorem claim_C4_witness :
    (runMigrationJob failMacrosWork
      { source := liveSource, target := acmeTarget,
        job := { id := "j4", components := ["groups", "macros"] } }).outcome =
      Except.error ("AdapterError: create failed") ∧
    (runMigrationJob failMacrosWork
      { source := liveSource, target := acmeTarget,
        job := { id := "j4", components := ["groups", "macros"] } }).started =
      ["groups"] ++ ["macros"] ∧
    ("Error processing " ++ "macros" ++ ": " ++ "AdapterError: create failed") ∈
      (runMigrationJob failMacrosWork
        { source := liveSource, target := acmeTarget,
          job := { id := "j4", components := ["groups", "macros"] } }).log ∧
    (runMigrationJob failMacrosWork
      { source := liveSource, target := acmeTarget,
        job := { id := "j4", components := ["groups", "macros"] } }).log.getLast? =
      some ("Fatal error in migration job: " ++ "AdapterError: create failed") ∧
    (runMigrationJob failMacrosWork
      { source := liveSource, target := acmeTarget,
        job := { id := "j4", components := ["groups", "macros"] } }).progressUpdates =
      progressTail 2 0 1 := by
  exact claim_C4 failMacrosWork
    { source := liveSource, target := acmeTarget,
      job := { id := "j4", components := ["groups", "macros"] } }
    [] [] none ["groups"] [] "macros" "AdapterError: create failed"
    rfl (by decide)
    (fun d hd => ⟨"Fetching " ++ d ++ " from live instance " ++ "acme", rfl⟩)
    (fun d hd => ⟨[], by
      have : d = "groups" := by simpa using hd
      rw [this]
      rfl⟩)
    ⟨"Fetching " ++ "macros" ++ " from live instance " ++ "acme", rfl⟩
    rfl

theorem migrateRecords_ok (create : String → SourceRecord → Except String String)
    (tid : String → SourceRecord → String) (c : String) :
    ∀ rs : List SourceRecord, (∀ r ∈ rs, create c r = Except.ok (tid c r)) →
      migrateRecords create c rs =
        Except.ok (rs.map fun r =>
          ({ oldId := r.sourceId, newId := tid c r, type := c, metadata := none } : IdMapping)) := by
  intro rs
  induction rs with
  | nil => intro h; rfl
  | cons r rest ih =>
    intro h
    have hr : create c r = Except.ok (tid c r) := h r (by simp)
    have hrest := ih fun r2 h2 => h r2 (by simp [h2])
    unfold migrateRecords
    rw [hr, hrest]
    simp

/-- C5: plugging the spec-modelled Component Migrator into the worker, every
run in which all fetches and creates succeed terminates Completed and the
returned result carries exactly one IdMapping per fetched source record of
each migrated component, in migration order; in particular the number of
returned mappings is the sum of the record counts. -/
theorem claim_C5 (fetchRecords : String → List SourceRecord)
    (create : String → SourceRecord → Except String String)
    (tid : String → SourceRecord → String) (data : MigrationJobData)
    (plog : List String) (vcalls : List (List String)) (snapOpt : Option Snapshot)
    (hphase : snapshotPhase data.source data.job.components = (plog, vcalls, Except.ok snapOpt))
    (hfetch : ∀ d ∈ sortedComponents data.job.components,
      ∃ line, componentFetchLog data.source snapOpt d = Except.ok line)
    (hcreate : ∀ c r, create c r = Except.ok (tid c r)) :
    (runMigrationJob (specWork fetchRecords create) data).outcome =
      Except.ok (data.job.id,
        ((sortedComponents data.job.components).map fun c =>
          (fetchRecords c).map fun r =>
            ({ oldId := r.sourceId, newId := tid c r, type := c, metadata := none } : IdMapping)).flatten) ∧
    (((sortedComponents data.job.components).map fun c =>
        (fetchRecords c).map fun r =>
          ({ oldId := r.sourceId, newId := tid c r, type := c, metadata := none } : IdMapping)).flatten).length =
      ((sortedComponents data.job.components).map fun c => (fetchRecords c).length).sum := by
  have hw : ∀ d ∈ sortedComponents data.job.components,
      specWork fetchRecords create d =
        Except.ok ((fetchRecords d).map fun r =>
          ({ oldId := r.sourceId, newId := tid d r, type := d, metadata := none } : IdMapping)) := by
    intro d _
    unfold specWork
    exact migrateRecords_ok create tid d (fetchRecords d) fun r _ => hcreate d r
  obtain ⟨st2, hrun, hstep, hstart, hmap, hprog⟩ :=
    runComponents_success (specWork fetchRecords create) data.source data.target snapOpt
      data.job.components.length
      (fun d => (fetchRecords d).map fun r =>
        ({ oldId := r.sourceId, newId := tid d r, type := d, metadata := none } : IdMapping))
      (sortedComponents data.job.components)
      ({ currentStep := 0,
         log := ["Initializing migration job at tmp/" ++ data.job.id] ++ plog,
         progressUpdates := [], idMappings := [], started := [] })
      hfetch hw
  constructor
  · simp only [runMigrationJob, hphase]
    rw [hrun]
    simp only [hmap]
    simp
  · rw [List.length_flatten]
    rw [List.map_map]
    congr 1
    apply List.map_congr_left
    intro a ha
    simp

/-- Source records used by the C5 witness. -/
def demoFetch : String → List SourceRecord :=
  fun c =>
    if c = "groups" then [{ sourceId := "g1" }, { sourceId := "g2" }]
    else if c = "ticket_fields" then [{ sourceId := "t1" }]
    else []

/-- Target-adapter create used by the C5 witness: always succeeds. -/
def demoCreate : String → SourceRecord → Except String String :=
  fun _ r => Except.ok ("new-" ++ r.sourceId)

/-- The target ids `demoCreate` produces. -/
def demoTid : String → SourceRecord → String :=
  fun _ r => "new-" ++ r.sourceId

theorem claim_C5_witness :
    (runMigrationJob (specWork demoFetch demoCreate)
      { source := liveSource, target := acmeTarget,
        job := { id := "j5", components := ["ticket_fields", "groups"] } }).outcome =
      Except.ok ("j5",
        [{ oldId := "g1", newId := "new-g1", type := "groups", metadata := none },
         { oldId := "g2", newId := "new-g2", type := "groups", metadata := none },
         { oldId := "t1", newId := "new-t1", type := "ticket_fields", metadata := none }]) := by
  have h := claim_C5 demoFetch demoCreate demoTid
    { source := liveSource, target := acmeTarget,
      job := { id := "j5", components := ["ticket_fields", "groups"] } }
    [] [] none rfl
    (fun d _ => ⟨"Fetching " ++ d ++ " from live instance " ++ "acme",
      componentFetchLog_live liveSource none d rfl⟩)
    (fun _ _ => rfl)
  exact h.1.trans rfl
